import Mathlib

/-
Verification of the doppelist capture-and-replay subsystem.

This file shallowly embeds the core of the repository:
- the cropped-stream compositor of src/lib/capture/recorder.ts
  (createCroppedStream: the per-tick drawFrame loop, the source-rectangle
  computation, and the cleanup sequencing),
- the recorder stop path of createRecorder,
- the use-recorder hook's two-phase prepare/begin protocol
  (beginPreparedRecording),
- the reload-and-record orchestrator (handleReloadAndRecord),
- the interaction EventRecorder / OverlayRecorder duration accounting,
- the EventReplayer (loadEvents sorting, play, and the replayLoop
  dispatch scheduling).

Browser-API effects (canvas draws, requestAnimationFrame scheduling, track
stops) are represented as explicit data: a tick returns which draw call it
issued and whether it re-scheduled itself; cleanup returns the ordered list
of actions it performed.  Pixel coordinates are rationals, matching the
float arithmetic of getBoundingClientRect and the scale factors.
-/

namespace Doppelist

/-! ### Compositor geometry (src/lib/capture/recorder.ts, createCroppedStream) -/

/-- A DOMRect as returned by getBoundingClientRect, in CSS viewport pixels. -/
structure BoundingRect where
  left : ℚ
  top : ℚ
  width : ℚ
  height : ℚ
deriving DecidableEq, Repr

/-- The source rectangle handed to ctx.drawImage, in raw-frame coordinates. -/
structure SourceRect where
  sx : ℚ
  sy : ℚ
  sw : ℚ
  sh : ℚ
deriving DecidableEq, Repr

/-- The source-rectangle computation inlined in drawFrame
(recorder.ts lines 117-133): scale factors from viewport to raw frame,
the ad origin centered inside the element's bounding box, and the
unscaled crop rectangle.  No clamping is performed anywhere. -/
def computeSourceRect (rect : BoundingRect)
    (width height videoWidth videoHeight viewportWidth viewportHeight : ℚ) :
    SourceRect :=
  { sx := (rect.left + (rect.width - width) / 2) * (videoWidth / viewportWidth)
    sy := (rect.top + (rect.height - height) / 2) * (videoHeight / viewportHeight)
    sw := width * (videoWidth / viewportWidth)
    sh := height * (videoHeight / viewportHeight) }

/-- What one iteration of the drawFrame animation loop did: the drawImage
source rectangle it issued (none when it skipped drawing), and whether it
re-scheduled itself via requestAnimationFrame. -/
structure DrawTick where
  draw : Option SourceRect
  scheduledNext : Bool
deriving DecidableEq, Repr

/-- One iteration of drawFrame (recorder.ts lines 97-137).  If the loop has
been stopped it returns without rescheduling; if the crop target element
resolves to null it skips the draw and reschedules; if the video has no
dimensions yet it skips the draw but still reschedules; otherwise it draws
the computed source rectangle and reschedules. -/
def drawFrame (isRunning : Bool) (element : Option BoundingRect)
    (width height videoWidth videoHeight viewportWidth viewportHeight : ℚ) :
    DrawTick :=
  if !isRunning then { draw := none, scheduledNext := false }
  else
    match element with
    | none => { draw := none, scheduledNext := true }
    | some rect =>
      if videoWidth ≠ 0 ∧ videoHeight ≠ 0 then
        { draw := some (computeSourceRect rect width height
            videoWidth videoHeight viewportWidth viewportHeight)
          scheduledNext := true }
      else { draw := none, scheduledNext := true }

/-! ### Compositor cleanup ordering (recorder.ts lines 147-174) -/

/-- The externally visible actions performed while tearing a session down. -/
inductive CleanupAction where
  | setNotRunning
  | cancelDrawLoop
  | pauseVideo
  | detachSink
  | stopRawTrack (id : Nat)
deriving DecidableEq, Repr

/-- The cleanup closure of createCroppedStream, in program order:
isRunning = false, cancelAnimationFrame, video.pause(),
video.srcObject = null. -/
def croppedStreamCleanup : List CleanupAction :=
  [CleanupAction.setNotRunning, CleanupAction.cancelDrawLoop,
   CleanupAction.pauseVideo, CleanupAction.detachSink]

/-- combinedCleanup in requestScreenCapture: first the compositor cleanup,
then stop every track of the raw stream. -/
def combinedCleanup (rawTracks : List Nat) : List CleanupAction :=
  croppedStreamCleanup ++ rawTracks.map CleanupAction.stopRawTrack

/-! ### Recorder stop path (recorder.ts, createRecorder) -/

/-- A binary artifact: the concatenated chunk bytes plus the MIME type. -/
structure Blob where
  data : List Nat
  type : String
deriving DecidableEq, Repr

/-- The typed failures of the recorder stop path. -/
inductive RecorderError where
  | noDataRecorded
deriving DecidableEq, Repr

/-- The ondataavailable handler (recorder.ts lines 213-217): a chunk is
accumulated only when its size is positive. -/
def ondataavailable (chunks : List (List Nat)) (data : List Nat) :
    List (List Nat) :=
  if data.length > 0 then chunks ++ [data] else chunks

/-- The onstop finalizer inside stop() (recorder.ts lines 231-243): with
zero accumulated chunks the promise rejects with the no-data error,
otherwise it resolves with a Blob concatenating the chunks. -/
def stopRecorder (chunks : List (List Nat)) (mimeType : String) :
    Except RecorderError Blob :=
  if chunks.length = 0 then Except.error RecorderError.noDataRecorded
  else Except.ok { data := chunks.flatten, type := mimeType }

/-! ### Two-phase prepare/begin hook state (use-recorder, beginPreparedRecording) -/

/-- The slice of useRecorder state that beginPreparedRecording touches:
whether recorderRef.current is non-null, the isPrepared ref/state, the
isRecording flag, how many times recorder.start() has been invoked, and
the console error log. -/
structure UseRecorderState where
  recorderPresent : Bool
  isPrepared : Bool
  isRecording : Bool
  startCalls : Nat
  errorLog : List String
deriving DecidableEq, Repr

/-- beginPreparedRecording: if no recorder is present or no session is
prepared, log an error and return unchanged; otherwise invoke
recorder.start(), clear isPrepared and set isRecording. -/
def beginPreparedRecording (s : UseRecorderState) : UseRecorderState :=
  if !s.recorderPresent || !s.isPrepared then
    { s with errorLog := s.errorLog ++ ["No prepared recording to start"] }
  else
    { s with startCalls := s.startCalls + 1
             isPrepared := false
             isRecording := true }

/-! ### Reload-and-record orchestrator (handleReloadAndRecord) -/

/-- The externally visible steps of handleReloadAndRecord, in the order
they occur. -/
inductive OrchestratorStep where
  | prepare
  | countdownTick (n : Nat)
  | reload
  | begin
deriving DecidableEq, Repr

/-- handleReloadAndRecord: bail out when no tag is loaded; otherwise
attempt prepareRecording.  On success run the countdown 3, 2, 1 (one tick
per second), reload the ad content, then begin the prepared recording.
A prepare failure is caught, so nothing after the prepare attempt runs. -/
def handleReloadAndRecord (loadedTag : Bool) (prepareSucceeds : Bool) :
    List OrchestratorStep :=
  if !loadedTag then []
  else if prepareSucceeds then
    [OrchestratorStep.prepare,
     OrchestratorStep.countdownTick 3, OrchestratorStep.countdownTick 2,
     OrchestratorStep.countdownTick 1,
     OrchestratorStep.reload, OrchestratorStep.begin]
  else [OrchestratorStep.prepare]

/-! ### Interaction events (src/types/interaction.ts) -/

/-- The discriminant of an interaction event. -/
inductive InteractionEventType where
  | click
  | mousedown
  | mouseup
  | mousemove
  | touchstart
  | touchmove
  | touchend
  | scroll
deriving DecidableEq, Repr

/-- A recorded interaction event: kind, milliseconds since recording
start (Math.round makes it an integer), and coordinates relative to the
ad content area. -/
structure InteractionEvent where
  type : InteractionEventType
  timestamp : Nat
  x : Int
  y : Int
deriving DecidableEq, Repr

/-! ### Interaction recorder duration accounting -/

/-- The slice of EventRecorder / OverlayRecorder state that getDuration
reads: the accumulated events, the performance.now() value at start, and
the recording flag. -/
structure InteractionRecorderState where
  events : List InteractionEvent
  startTime : ℚ
  isRecording : Bool
deriving DecidableEq, Repr

namespace EventRecorder

/-- EventRecorder.getDuration (event-recorder.ts lines 129-136): while not
recording, the timestamp of the last recorded event (0 when none);
while recording, elapsed wall-clock time since start. -/
def getDuration (s : InteractionRecorderState) (now : ℚ) : ℚ :=
  if !s.isRecording then
    match s.events.getLast? with
    | some e => (e.timestamp : ℚ)
    | none => 0
  else now - s.startTime

end EventRecorder

namespace OverlayRecorder

/-- OverlayRecorder.getDuration (celtra.ts overlay recorder, lines
173-180): textually the same computation as EventRecorder.getDuration. -/
def getDuration (s : InteractionRecorderState) (now : ℚ) : ℚ :=
  if !s.isRecording then
    match s.events.getLast? with
    | some e => (e.timestamp : ℚ)
    | none => 0
  else now - s.startTime

end OverlayRecorder

/-! ### Event replayer (event-recorder.ts, EventReplayer) -/

namespace EventReplayer

/-- loadEvents: copy the input and sort it by timestamp (the comparator
(a, b) => a.timestamp - b.timestamp; array sort is stable, so a stable
merge sort models it). -/
def loadEvents (events : List InteractionEvent) : List InteractionEvent :=
  events.mergeSort (fun a b => a.timestamp ≤ b.timestamp)

/-- The synchronous prefix of play(): already-playing calls warn and
return; an empty loaded event list fires onComplete and returns before
iframe.contentDocument is ever read; otherwise the content document is
read, an inaccessible one raises the replay-target error, and an
accessible one starts the replay loop. -/
inductive PlayOutcome where
  | alreadyPlaying
  | emptyTraceComplete
  | targetUnavailable
  | loopStarted
deriving DecidableEq, Repr

/-- What play() did before (or instead of) scheduling the replay loop. -/
structure PlayResult where
  outcome : PlayOutcome
  completeFired : Bool
  dispatchedCount : Nat
  accessedContentDocument : Bool
deriving DecidableEq, Repr

/-- play() (event-recorder.ts lines 321-371), up to the point where the
replay loop is scheduled. -/
def play (isPlaying : Bool) (events : List InteractionEvent)
    (contentDocumentAccessible : Bool) : PlayResult :=
  if isPlaying then
    { outcome := PlayOutcome.alreadyPlaying, completeFired := false
      dispatchedCount := 0, accessedContentDocument := false }
  else if events.length = 0 then
    { outcome := PlayOutcome.emptyTraceComplete, completeFired := true
      dispatchedCount := 0, accessedContentDocument := false }
  else if !contentDocumentAccessible then
    { outcome := PlayOutcome.targetUnavailable, completeFired := false
      dispatchedCount := 0, accessedContentDocument := true }
  else
    { outcome := PlayOutcome.loopStarted, completeFired := false
      dispatchedCount := 0, accessedContentDocument := true }

/-- The while loop inside replayLoop (event-recorder.ts lines 419-428):
starting from currentIndex i, dispatch events[i], events[i+1], ... as long
as the index is in range and the event's timestamp is at most the elapsed
time.  Returns the dispatched batch in dispatch order together with the
new currentIndex. -/
def replayDispatchLoop (events : List InteractionEvent) (i : Nat)
    (elapsed : Nat) : List InteractionEvent × Nat :=
  if h : i < events.length then
    if events[i].timestamp ≤ elapsed then
      let r := replayDispatchLoop events (i + 1) elapsed
      (events[i] :: r.1, r.2)
    else ([], i)
  else ([], i)
termination_by events.length - i

end EventReplayer

/-! ## Theorems -/

namespace EventReplayer

/-- The dispatch loop dispatches exactly the longest due prefix of the
not-yet-dispatched suffix, and advances currentIndex by its length. -/
theorem replayDispatchLoop_eq (events : List InteractionEvent) (elapsed : Nat) :
    ∀ i, replayDispatchLoop events i elapsed =
      ((events.drop i).takeWhile (fun e => e.timestamp ≤ elapsed),
       i + ((events.drop i).takeWhile (fun e => e.timestamp ≤ elapsed)).length) := by
  have key : ∀ n i, events.length - i ≤ n →
      replayDispatchLoop events i elapsed =
        ((events.drop i).takeWhile (fun e => e.timestamp ≤ elapsed),
         i + ((events.drop i).takeWhile (fun e => e.timestamp ≤ elapsed)).length) := by
    intro n
    induction n with
    | zero =>
      intro i hi
      have hle : events.length ≤ i := by omega
      rw [replayDispatchLoop, dif_neg (by omega), List.drop_eq_nil_of_le hle]
      simp
    | succ n ih =>
      intro i hi
      rw [replayDispatchLoop]
      by_cases h : i < events.length
      · rw [dif_pos h, List.drop_eq_getElem_cons h, List.takeWhile_cons]
        by_cases hts : events[i].timestamp ≤ elapsed
        · rw [if_pos hts, ih (i + 1) (by omega)]
          simp only [hts, decide_True, if_true, List.length_cons]
          refine Prod.ext rfl ?_
          simp
          omega
        · rw [if_neg hts]
          simp [hts]
      · rw [dif_neg h, List.drop_eq_nil_of_le (by omega)]
        simp
  intro i
  exact key (events.length - i) i (le_refl _)

/-- currentIndex never moves backwards. -/
theorem le_replayDispatchLoop (events : List InteractionEvent)
    (elapsed i : Nat) : i ≤ (replayDispatchLoop events i elapsed).2 := by
  rw [replayDispatchLoop_eq]
  exact Nat.le_add_right _ _

/-- On a sorted trace, every not-yet-dispatched event that is due at the
current elapsed time is dispatched by the loop. -/
theorem replayDispatchLoop_complete (events : List InteractionEvent)
    (elapsed : Nat)
    (hs : events.Pairwise (fun a b => a.timestamp ≤ b.timestamp)) :
    ∀ i j (hj : j < events.length), i ≤ j → events[j].timestamp ≤ elapsed →
      j < (replayDispatchLoop events i elapsed).2 := by
  have hget := List.pairwise_iff_getElem.1 hs
  have key : ∀ n i j (hj : j < events.length), events.length - i ≤ n →
      i ≤ j → events[j].timestamp ≤ elapsed →
      j < (replayDispatchLoop events i elapsed).2 := by
    intro n
    induction n with
    | zero =>
      intro i j hj hni hij hts
      omega
    | succ n ih =>
      intro i j hj hni hij hts
      have hi : i < events.length := lt_of_le_of_lt hij hj
      have htsi : events[i].timestamp ≤ elapsed := by
        rcases Nat.lt_or_ge i j with hlt | hge
        · exact le_trans (hget i j hi hj hlt) hts
        · have heq : i = j := by omega
          subst heq
          exact hts
      rw [replayDispatchLoop, dif_pos hi, if_pos htsi]
      show j < (replayDispatchLoop events (i + 1) elapsed).2
      rcases Nat.lt_or_ge j (i + 1) with hlt | hge
      · have := le_replayDispatchLoop events elapsed (i + 1)
        omega
      · exact ih (i + 1) j hj (by omega) hge hts
  intro i j hj hij hts
  exact key (events.length - i) i j hj (le_refl _) hij hts

/-- Claim C2: on every tick of the replayer's scheduling loop, every
not-yet-dispatched event whose timestamp is at most the elapsed time is
dispatched during that same tick (the dispatched batch is exactly the due
prefix of the remaining suffix, not a single event), the dispatched batch
is the consecutive slice of the trace starting at the old currentIndex
taken in trace order (so event i is fully dispatched before event i+1
begins), and the batch is monotonic in timestamp. -/
theorem replayLoop_dispatches_all_due_in_order
    (events : List InteractionEvent) (i elapsed : Nat)
    (hs : events.Pairwise (fun a b => a.timestamp ≤ b.timestamp)) :
    (∀ j (hj : j < events.length), i ≤ j → events[j].timestamp ≤ elapsed →
        j < (replayDispatchLoop events i elapsed).2) ∧
    (replayDispatchLoop events i elapsed).1 =
      (events.drop i).takeWhile (fun e => e.timestamp ≤ elapsed) ∧
    (replayDispatchLoop events i elapsed).2 =
      i + (replayDispatchLoop events i elapsed).1.length ∧
    (replayDispatchLoop events i elapsed).1.Pairwise
      (fun a b => a.timestamp ≤ b.timestamp) := by
  refine ⟨?_, ?_, ?_, ?_⟩
  · intro j hj hij hts
    exact replayDispatchLoop_complete events elapsed hs i j hj hij hts
  · rw [replayDispatchLoop_eq]
  · rw [replayDispatchLoop_eq]
  · rw [replayDispatchLoop_eq]
    exact List.Pairwise.sublist
      ((List.takeWhile_sublist _).trans (List.drop_sublist _ _)) hs

/-- Concrete witness for the C2 theorem: a two-event trace at timestamps
0 and 250; at elapsed 100 exactly the first event is dispatched, and at
elapsed 300 the loop has moved past index 1. -/
theorem replayLoop_dispatches_all_due_in_order_witness :
    (replayDispatchLoop
      [{ type := InteractionEventType.click, timestamp := 0, x := 10, y := 20 },
       { type := InteractionEventType.click, timestamp := 250, x := 10, y := 20 }]
      0 100).1 =
      [{ type := InteractionEventType.click, timestamp := 0, x := 10, y := 20 }] ∧
    1 < (replayDispatchLoop
      [{ type := InteractionEventType.click, timestamp := 0, x := 10, y := 20 },
       { type := InteractionEventType.click, timestamp := 250, x := 10, y := 20 }]
      0 300).2 := by
  have hp : ([{ type := InteractionEventType.click, timestamp := 0, x := 10, y := 20 },
      { type := InteractionEventType.click, timestamp := 250, x := 10, y := 20 }] :
      List InteractionEvent).Pairwise (fun a b => a.timestamp ≤ b.timestamp) := by
    simp [List.pairwise_cons]
  constructor
  · have h := (replayLoop_dispatches_all_due_in_order _ 0 100 hp).2.1
    simpa using h
  · exact (replayLoop_dispatches_all_due_in_order _ 0 300 hp).1 1 (by simp)
      (by omega) (by simp)

/-- Claim C4: loading a trace produces a sorted permutation of the input
event list: the events are sorted by non-decreasing timestamp before
replay begins regardless of capture order. -/
theorem loadEvents_sorted_perm (events : List InteractionEvent) :
    (loadEvents events).Perm events ∧
    (loadEvents events).Pairwise (fun a b => a.timestamp ≤ b.timestamp) := by
  constructor
  · exact List.mergeSort_perm events _
  · have htrans : ∀ a b c : InteractionEvent,
        (decide (a.timestamp ≤ b.timestamp)) = true →
        (decide (b.timestamp ≤ c.timestamp)) = true →
        (decide (a.timestamp ≤ c.timestamp)) = true := by
      intro a b c h1 h2
      simp only [decide_eq_true_eq] at *
      omega
    have htotal : ∀ a b : InteractionEvent,
        ((decide (a.timestamp ≤ b.timestamp)) ||
         (decide (b.timestamp ≤ a.timestamp))) = true := by
      intro a b
      simp only [Bool.or_eq_true, decide_eq_true_eq]
      omega
    have h := @List.sorted_mergeSort InteractionEvent
      (fun a b => decide (a.timestamp ≤ b.timestamp)) htrans htotal events
    exact h.imp (by intro a b hab; simpa using hab)

/-- Claim C9: play() on an empty loaded event list fires the completion
callback, dispatches nothing, and returns without ever reading the target
content document, whatever the accessibility of that document. -/
theorem play_empty_trace_completes (accessible : Bool) :
    play false [] accessible =
      { outcome := PlayOutcome.emptyTraceComplete, completeFired := true
        dispatchedCount := 0, accessedContentDocument := false } := rfl

end EventReplayer

/-- Claim C1 counterexample: the claim asserts that the computed source
rectangle always satisfies 0 ≤ sx, with out-of-range bounding boxes
clamped into range.  At an element bounding box whose left edge is at
viewport coordinate -100 (element half scrolled out of view), the
computed sx is negative: no clamping is performed. -/
theorem sourceRect_claim_counterexample :
    (computeSourceRect
      { left := -100, top := 0, width := 300, height := 250 }
      300 250 1920 1080 1920 1080).sx < 0 := by
  norm_num [computeSourceRect]

/-- Claim C1 (amended): the compositor computes the source rectangle by
direct, unclamped scaling of the element's bounding box; whenever the
centered ad area lies within the viewport and the frame and viewport
dimensions are well formed, the rectangle lies within the raw frame
bounds.  (Out-of-viewport boxes yield out-of-range coordinates that are
passed to drawImage as-is; no error is raised, but no clamping occurs.) -/
theorem sourceRect_in_bounds_of_centered_ad_in_viewport
    (rect : BoundingRect)
    (width height videoWidth videoHeight viewportWidth viewportHeight : ℚ)
    (hvw : 0 < viewportWidth) (hvh : 0 < viewportHeight)
    (hfw : 0 ≤ videoWidth) (hfh : 0 ≤ videoHeight)
    (hl : 0 ≤ rect.left + (rect.width - width) / 2)
    (hr : rect.left + (rect.width - width) / 2 + width ≤ viewportWidth)
    (ht : 0 ≤ rect.top + (rect.height - height) / 2)
    (hb : rect.top + (rect.height - height) / 2 + height ≤ viewportHeight) :
    0 ≤ (computeSourceRect rect width height videoWidth videoHeight
          viewportWidth viewportHeight).sx ∧
    (computeSourceRect rect width height videoWidth videoHeight
        viewportWidth viewportHeight).sx +
      (computeSourceRect rect width height videoWidth videoHeight
        viewportWidth viewportHeight).sw ≤ videoWidth ∧
    0 ≤ (computeSourceRect rect width height videoWidth videoHeight
          viewportWidth viewportHeight).sy ∧
    (computeSourceRect rect width height videoWidth videoHeight
        viewportWidth viewportHeight).sy +
      (computeSourceRect rect width height videoWidth videoHeight
        viewportWidth viewportHeight).sh ≤ videoHeight := by
  have hsX : 0 ≤ videoWidth / viewportWidth := div_nonneg hfw (le_of_lt hvw)
  have hsY : 0 ≤ videoHeight / viewportHeight := div_nonneg hfh (le_of_lt hvh)
  have hx : (rect.left + (rect.width - width) / 2 + width) *
      (videoWidth / viewportWidth) ≤ viewportWidth * (videoWidth / viewportWidth) :=
    mul_le_mul_of_nonneg_right hr hsX
  have hy : (rect.top + (rect.height - height) / 2 + height) *
      (videoHeight / viewportHeight) ≤
      viewportHeight * (videoHeight / viewportHeight) :=
    mul_le_mul_of_nonneg_right hb hsY
  have hcx : viewportWidth * (videoWidth / viewportWidth) = videoWidth := by
    field_simp
  have hcy : viewportHeight * (videoHeight / viewportHeight) = videoHeight := by
    field_simp
  refine ⟨mul_nonneg hl hsX, ?_, mul_nonneg ht hsY, ?_⟩
  · simp only [computeSourceRect]
    nlinarith [hx, hcx]
  · simp only [computeSourceRect]
    nlinarith [hy, hcy]

/-- Concrete witness for the amended C1 theorem: a 300×250 ad centered at
(10, 20) on a 1920×1080 viewport captured at 1920×1080. -/
theorem sourceRect_in_bounds_witness :
    0 ≤ (computeSourceRect { left := 10, top := 20, width := 300, height := 250 }
          300 250 1920 1080 1920 1080).sx ∧
    (computeSourceRect { left := 10, top := 20, width := 300, height := 250 }
        300 250 1920 1080 1920 1080).sx +
      (computeSourceRect { left := 10, top := 20, width := 300, height := 250 }
        300 250 1920 1080 1920 1080).sw ≤ 1920 ∧
    0 ≤ (computeSourceRect { left := 10, top := 20, width := 300, height := 250 }
          300 250 1920 1080 1920 1080).sy ∧
    (computeSourceRect { left := 10, top := 20, width := 300, height := 250 }
        300 250 1920 1080 1920 1080).sy +
      (computeSourceRect { left := 10, top := 20, width := 300, height := 250 }
        300 250 1920 1080 1920 1080).sh ≤ 1080 :=
  sourceRect_in_bounds_of_centered_ad_in_viewport
    { left := 10, top := 20, width := 300, height := 250 }
    300 250 1920 1080 1920 1080
    (by norm_num) (by norm_num) (by norm_num) (by norm_num)
    (by norm_num) (by norm_num) (by norm_num) (by norm_num)

/-- Claim C6: on a tick of the running draw loop where the crop target
element resolves to null, the compositor issues no draw call, raises no
error (the tick is a total function), and re-schedules itself for the
next tick, for every frame geometry. -/
theorem drawFrame_null_element_skips_and_reschedules
    (width height videoWidth videoHeight viewportWidth viewportHeight : ℚ) :
    drawFrame true none width height videoWidth videoHeight
      viewportWidth viewportHeight =
      { draw := none, scheduledNext := true } := rfl

/-- Claim C7: in the combined cleanup, the draw loop is cancelled
(position 1) and the off-screen video sink is detached (position 3)
strictly before any raw-stream track is stopped: every stop-track action
sits at a position after 3, for every track list. -/
theorem combinedCleanup_order (rawTracks : List Nat) :
    (combinedCleanup rawTracks)[1]? = some CleanupAction.cancelDrawLoop ∧
    (combinedCleanup rawTracks)[3]? = some CleanupAction.detachSink ∧
    ∀ k t, (combinedCleanup rawTracks)[k]? =
        some (CleanupAction.stopRawTrack t) → 3 < k := by
  refine ⟨by simp [combinedCleanup, croppedStreamCleanup],
    by simp [combinedCleanup, croppedStreamCleanup], ?_⟩
  intro k t hk
  match k with
  | 0 | 1 | 2 | 3 => simp [combinedCleanup, croppedStreamCleanup] at hk
  | n + 4 => omega

/-- Concrete witness for the C7 theorem: with a single raw track, the
stop-track action sits at position 4, after the detach at position 3. -/
theorem combinedCleanup_order_witness :
    (combinedCleanup [7])[4]? = some (CleanupAction.stopRawTrack 7) ∧ 3 < 4 :=
  ⟨rfl, (combinedCleanup_order [7]).2.2 4 7 rfl⟩

/-- Claim C3: stopping with zero collected chunks always fails with the
no-data error; with at least one chunk it resolves with the Blob
concatenating the accumulated chunks; a success is never produced from
zero chunks, and since ondataavailable only accumulates non-empty chunks,
a success artifact is never zero bytes. -/
theorem stopRecorder_zero_chunks_errors
    (chunks : List (List Nat)) (mimeType : String) :
    (stopRecorder [] mimeType = Except.error RecorderError.noDataRecorded) ∧
    (chunks ≠ [] →
      stopRecorder chunks mimeType =
        Except.ok { data := chunks.flatten, type := mimeType }) ∧
    (∀ b, stopRecorder chunks mimeType = Except.ok b → chunks ≠ []) ∧
    (∀ b, (∀ c ∈ chunks, c ≠ []) →
      stopRecorder chunks mimeType = Except.ok b → b.data ≠ []) := by
  refine ⟨rfl, ?_, ?_, ?_⟩
  · intro h
    unfold stopRecorder
    rw [if_neg]
    simpa [List.length_eq_zero] using h
  · intro b hb
    unfold stopRecorder at hb
    by_cases hc : chunks.length = 0
    · rw [if_pos hc] at hb
      simp at hb
    · simpa [List.length_eq_zero] using hc
  · intro b hall hb
    unfold stopRecorder at hb
    by_cases hc : chunks.length = 0
    · rw [if_pos hc] at hb
      simp at hb
    · rw [if_neg hc] at hb
      have hdata : b.data = chunks.flatten := by
        cases hb
        rfl
      rw [hdata]
      intro hnil
      have hall' := List.flatten_eq_nil_iff.1 hnil
      have hne : chunks ≠ [] := by
        simpa [List.length_eq_zero] using hc
      match chunks, hne with
      | c :: cs, _ =>
        exact hall c (by simp) (hall' c (by simp))

/-- Concrete witness for the C3 theorem: two non-empty chunks resolve to
the concatenated artifact. -/
theorem stopRecorder_zero_chunks_errors_witness :
    ([[1, 2], [3]] : List (List Nat)) ≠ [] ∧
    stopRecorder [[1, 2], [3]] "video/webm" =
      Except.ok { data := [1, 2, 3], type := "video/webm" } := by
  refine ⟨by decide, ?_⟩
  have h := (stopRecorder_zero_chunks_errors [[1, 2], [3]] "video/webm").2.1
    (by decide)
  exact h

/-- Claim C5: beginPreparedRecording with no prepared session (or no
recorder) logs an error and is otherwise a no-op — recorder.start() is
not invoked and isRecording / isPrepared are unchanged — while on a
prepared session it invokes start() once and moves prepared → recording. -/
theorem beginPreparedRecording_guard (s : UseRecorderState) :
    (s.isPrepared = false →
      (beginPreparedRecording s).startCalls = s.startCalls ∧
      (beginPreparedRecording s).isRecording = s.isRecording ∧
      (beginPreparedRecording s).isPrepared = s.isPrepared ∧
      (beginPreparedRecording s).errorLog =
        s.errorLog ++ ["No prepared recording to start"]) ∧
    (s.recorderPresent = true → s.isPrepared = true →
      (beginPreparedRecording s).startCalls = s.startCalls + 1 ∧
      (beginPreparedRecording s).isPrepared = false ∧
      (beginPreparedRecording s).isRecording = true) := by
  constructor
  · intro h
    simp [beginPreparedRecording, h]
  · intro h1 h2
    simp [beginPreparedRecording, h1, h2]

/-- Concrete witness for the C5 theorem: an unprepared state is left
unchanged apart from the log; a prepared state starts the encoder. -/
theorem beginPreparedRecording_guard_witness :
    (beginPreparedRecording
      { recorderPresent := true, isPrepared := false, isRecording := false
        startCalls := 0, errorLog := [] }).startCalls = 0 ∧
    (beginPreparedRecording
      { recorderPresent := true, isPrepared := true, isRecording := false
        startCalls := 0, errorLog := [] }).isRecording = true :=
  ⟨((beginPreparedRecording_guard
      { recorderPresent := true, isPrepared := false, isRecording := false
        startCalls := 0, errorLog := [] }).1 rfl).1,
   ((beginPreparedRecording_guard
      { recorderPresent := true, isPrepared := true, isRecording := false
        startCalls := 0, errorLog := [] }).2 rfl rfl).2.2⟩

/-- Claim C8: the reload-and-record orchestrator runs prepare, then the
three one-second countdown ticks, then the ad reload, then begin, in that
order; and when prepare fails the trace stops at the prepare attempt, so
no countdown tick and no reload occurs. -/
theorem handleReloadAndRecord_sequence :
    handleReloadAndRecord true true =
      [OrchestratorStep.prepare, OrchestratorStep.countdownTick 3,
       OrchestratorStep.countdownTick 2, OrchestratorStep.countdownTick 1,
       OrchestratorStep.reload, OrchestratorStep.begin] ∧
    handleReloadAndRecord true false = [OrchestratorStep.prepare] :=
  ⟨rfl, rfl⟩

/-- Claim C10: for both interaction recorders, once recording has
stopped, getDuration reports the timestamp of the last recorded event, or
0 when no events were recorded — independent of the current clock, so
time elapsed between the last event and stop() is excluded. -/
theorem getDuration_after_stop (s : InteractionRecorderState) (now : ℚ)
    (h : s.isRecording = false) :
    (s.events = [] →
      EventRecorder.getDuration s now = 0 ∧
      OverlayRecorder.getDuration s now = 0) ∧
    (∀ e, s.events.getLast? = some e →
      EventRecorder.getDuration s now = (e.timestamp : ℚ) ∧
      OverlayRecorder.getDuration s now = (e.timestamp : ℚ)) := by
  unfold EventRecorder.getDuration OverlayRecorder.getDuration
  rw [h]
  constructor
  · intro he
    rw [he]
    simp
  · intro e he
    rw [he]
    simp

/-- Concrete witness for the C10 theorem: a stopped recorder whose last
event is at 500 ms reports 500 even when queried at clock 9999. -/
theorem getDuration_after_stop_witness :
    EventRecorder.getDuration
      { events := [{ type := InteractionEventType.click, timestamp := 500,
                     x := 1, y := 2 }], startTime := 0, isRecording := false }
      9999 = ((500 : Nat) : ℚ) ∧
    OverlayRecorder.getDuration
      { events := [{ type := InteractionEventType.click, timestamp := 500,
                     x := 1, y := 2 }], startTime := 0, isRecording := false }
      9999 = ((500 : Nat) : ℚ) :=
  (getDuration_after_stop
    { events := [{ type := InteractionEventType.click, timestamp := 500,
                   x := 1, y := 2 }], startTime := 0, isRecording := false }
    9999 rfl).2
    { type := InteractionEventType.click, timestamp := 500, x := 1, y := 2 }
    rfl

end Doppelist
